import Mathlib

/-!
Verification development for the `object_localization` repository.

The embedding models, over `List Char` strings and a `Json` value type:
  * `utils/gemini_client.py`: `_extract_json_from_response` and the
    response-parsing tail of `filter_image`;
  * `src/router.py`: the keyword/regex stage `_match_by_keywords` and the
    cascade `_match_pipeline_by_question`;
  * `config.py`: the `PIPELINE_CONFIG` criteria table;
  * `main.py`: `_process_single_item_worker`, the result-collection loop with
    checkpointing of `process_json` / `main`, and `_append_results`.
-/

namespace ObjLoc

/-- Characters Python's `str.strip` / `json` treat as whitespace (ASCII part). -/
def isWsChar (c : Char) : Bool :=
  c = ' ' ∨ c = '\t' ∨ c = '\n' ∨ c = '\r' ∨ c = '\x0b' ∨ c = '\x0c'

/-- Lower-case every character (models `str.lower` on ASCII questions). -/
def lowerL (s : List Char) : List Char := s.map Char.toLower

/-- Model of Python `str.strip()`: drop whitespace at both ends. -/
def stripL (s : List Char) : List Char :=
  ((s.dropWhile isWsChar).reverse.dropWhile isWsChar).reverse

/-- `needle` occurs at the start of `hay`. -/
def prefixL : List Char → List Char → Bool
  | [], _ => true
  | _ :: _, [] => false
  | a :: as, b :: bs => a = b && prefixL as bs

/-- Model of Python's `needle in hay` substring test. -/
def containsL (hay needle : List Char) : Bool :=
  match hay with
  | [] => needle.isEmpty
  | _ :: t => prefixL needle hay || containsL t needle

/-- JSON values; object fields keep insertion order as Python dicts do. -/
inductive Json where
  | null : Json
  | bool : Bool → Json
  | num : ℚ → Json
  | str : List Char → Json
  | arr : List Json → Json
  | obj : List (List Char × Json) → Json

abbrev Dict := List (List Char × Json)

/-- First-match association-list lookup (matches Python dict lookup because
`dictInsert` below keeps keys unique). -/
def lookup (d : Dict) (k : List Char) : Option Json :=
  match d with
  | [] => none
  | (k', v) :: rest => if k' = k then some v else lookup rest k

/-- Python dict insertion: an existing key keeps its position and takes the
new value, a new key is appended at the end. -/
def dictInsert (d : Dict) (k : List Char) (v : Json) : Dict :=
  match d with
  | [] => [(k, v)]
  | (k', v') :: rest => if k' = k then (k, v) :: rest else (k', v') :: dictInsert rest k v

/-- Python `dict.setdefault(k, v)`: insert only when the key is absent. -/
def setdefault (d : Dict) (k : List Char) (v : Json) : Dict :=
  if (lookup d k).isSome then d else d ++ [(k, v)]

/-- Python `{**a, **b}`: keys of `a` in order (values overridden by `b` where
present), then the keys of `b` that are new, in order. -/
def dictUnion (a b : Dict) : Dict :=
  b.foldl (fun acc kv => dictInsert acc kv.1 kv.2) a

/-- Python `dict.pop(k, None)` (keys are unique in a dict, so removing every
occurrence coincides). -/
def dictPop (d : Dict) (k : List Char) : Dict :=
  match d with
  | [] => []
  | (k', v) :: rest => if k' = k then dictPop rest k else (k', v) :: dictPop rest k

/-! ### A model of Python `json.loads`

Covers objects, arrays, strings with escapes, `true`/`false`/`null`, and
numbers in integer/decimal form (exponent notation is not modelled; no claim
exercises it). Numbers are represented exactly as rationals, which is faithful
here because the code under verification never performs arithmetic on them. -/

/-- JSON whitespace as skipped by Python's `json` module (` \t\n\r`). -/
def skipJWs (cs : List Char) : List Char :=
  cs.dropWhile (fun c => c = ' ' || c = '\t' || c = '\n' || c = '\r')

def hexVal (c : Char) : Option Nat :=
  if '0' ≤ c ∧ c ≤ '9' then some (c.toNat - 48)
  else if 'a' ≤ c ∧ c ≤ 'f' then some (c.toNat - 87)
  else if 'A' ≤ c ∧ c ≤ 'F' then some (c.toNat - 55)
  else none

/-- Body of a JSON string literal, after the opening quote. -/
def parseStringBody : Nat → List Char → List Char → Except String (List Char × List Char)
  | 0, _, _ => .error "out of fuel"
  | _ + 1, [], _ => .error "Unterminated string"
  | f + 1, c :: rest, acc =>
    if c = '"' then .ok (acc, rest)
    else if c = '\\' then
      match rest with
      | [] => .error "Unterminated string"
      | e :: rest2 =>
        if e = '"' then parseStringBody f rest2 (acc ++ ['"'])
        else if e = '\\' then parseStringBody f rest2 (acc ++ ['\\'])
        else if e = '/' then parseStringBody f rest2 (acc ++ ['/'])
        else if e = 'b' then parseStringBody f rest2 (acc ++ ['\x08'])
        else if e = 'f' then parseStringBody f rest2 (acc ++ ['\x0c'])
        else if e = 'n' then parseStringBody f rest2 (acc ++ ['\n'])
        else if e = 'r' then parseStringBody f rest2 (acc ++ ['\r'])
        else if e = 't' then parseStringBody f rest2 (acc ++ ['\t'])
        else if e = 'u' then
          match rest2 with
          | h1 :: h2 :: h3 :: h4 :: rest3 =>
            match hexVal h1, hexVal h2, hexVal h3, hexVal h4 with
            | some a, some b, some c', some d =>
              parseStringBody f rest3 (acc ++ [Char.ofNat (((a * 16 + b) * 16 + c') * 16 + d)])
            | _, _, _, _ => .error "Invalid \\uXXXX escape"
          | _ => .error "Invalid \\uXXXX escape"
        else .error "Invalid \\escape"
    else if c.toNat < 32 then .error "Invalid control character"
    else parseStringBody f rest (acc ++ [c])

def digitsToNat (ds : List Char) : Nat :=
  ds.foldl (fun n c => 10 * n + (c.toNat - 48)) 0

/-- JSON number: optional minus, integer part (no leading zeros), optional
fraction. -/
def parseNumber (cs : List Char) : Except String (ℚ × List Char) :=
  let (neg, cs1) := match cs with
    | '-' :: rest => (true, rest)
    | _ => (false, cs)
  let ip := cs1.takeWhile Char.isDigit
  let cs2 := cs1.dropWhile Char.isDigit
  if ip = [] then .error "Expecting value"
  else if ip.length > 1 ∧ ip.headI = '0' then .error "Extra data"
  else
    let (fr, cs3) := match cs2 with
      | '.' :: rest => (rest.takeWhile Char.isDigit, rest.dropWhile Char.isDigit)
      | _ => ([], cs2)
    match cs2 with
    | '.' :: _ =>
      if fr = [] then .error "Expecting digits after decimal point"
      else
        let q : ℚ := mkRat (digitsToNat ip * 10 ^ fr.length + digitsToNat fr : ℕ) (10 ^ fr.length)
        .ok (if neg then -q else q, cs3)
    | _ =>
      let q : ℚ := mkRat (digitsToNat ip : ℕ) 1
      .ok (if neg then -q else q, cs2)

mutual

/-- Parse one JSON value (leading whitespace allowed). -/
def parseValue : Nat → List Char → Except String (Json × List Char)
  | 0, _ => .error "out of fuel"
  | f + 1, cs =>
    match skipJWs cs with
    | [] => .error "Expecting value"
    | '\x7b' :: rest => parseObjBody f (skipJWs rest) [] true
    | '[' :: rest => parseArrBody f (skipJWs rest) [] true
    | '"' :: rest =>
      match parseStringBody (rest.length + 1) rest [] with
      | .error e => .error e
      | .ok (s, r) => .ok (.str s, r)
    | 't' :: rest =>
      if prefixL ['r', 'u', 'e'] rest then .ok (.bool true, rest.drop 3)
      else .error "Expecting value"
    | 'f' :: rest =>
      if prefixL ['a', 'l', 's', 'e'] rest then .ok (.bool false, rest.drop 4)
      else .error "Expecting value"
    | 'n' :: rest =>
      if prefixL ['u', 'l', 'l'] rest then .ok (.null, rest.drop 3)
      else .error "Expecting value"
    | c :: rest =>
      if c = '-' ∨ c.isDigit then
        match parseNumber (c :: rest) with
        | .error e => .error e
        | .ok (q, r) => .ok (.num q, r)
      else .error "Expecting value"

/-- Fields of an object after `{` (whitespace already skipped); `first` is
true only before the first field, where `}` is allowed. -/
def parseObjBody : Nat → List Char → Dict → Bool → Except String (Json × List Char)
  | 0, _, _, _ => .error "out of fuel"
  | f + 1, cs, acc, first =>
    match cs with
    | '\x7d' :: rest =>
      if first then .ok (.obj acc, rest)
      else .error "Expecting property name enclosed in double quotes"
    | '"' :: rest =>
      match parseStringBody (rest.length + 1) rest [] with
      | .error e => .error e
      | .ok (k, r1) =>
        match skipJWs r1 with
        | ':' :: r2 =>
          match parseValue f r2 with
          | .error e => .error e
          | .ok (v, r3) =>
            match skipJWs r3 with
            | ',' :: r4 => parseObjBody f (skipJWs r4) (dictInsert acc k v) false
            | '\x7d' :: r4 => .ok (.obj (dictInsert acc k v), r4)
            | _ => .error "Expecting comma delimiter"
        | _ => .error "Expecting colon delimiter"
    | _ => .error "Expecting property name enclosed in double quotes"

/-- Elements of an array after `[` (whitespace already skipped); `first` is
true only before the first element, where `]` is allowed. -/
def parseArrBody : Nat → List Char → List Json → Bool → Except String (Json × List Char)
  | 0, _, _, _ => .error "out of fuel"
  | f + 1, cs, acc, first =>
    match cs, first with
    | ']' :: rest, true => .ok (.arr acc, rest)
    | _, _ =>
      match parseValue f cs with
      | .error e => .error e
      | .ok (v, r1) =>
        match skipJWs r1 with
        | ',' :: r2 => parseArrBody f (skipJWs r2) (acc ++ [v]) false
        | ']' :: r2 => .ok (.arr (acc ++ [v]), r2)
        | _ => .error "Expecting comma delimiter"

end

/-- Model of Python `json.loads`: a single document with nothing but
whitespace after it. -/
def loads (cs : List Char) : Except String Json :=
  match parseValue (cs.length + 1) cs with
  | .error e => .error e
  | .ok (v, rest) => if skipJWs rest = [] then .ok v else .error "Extra data"

/-! ### A model of Python `json.dump(x, f, ensure_ascii=False, indent=2)` -/

def natDigits (n : Nat) : List Char :=
  (toString n).data

def intStr (i : ℤ) : List Char :=
  if i < 0 then '-' :: natDigits i.natAbs else natDigits i.natAbs

/-- Serialize a JSON string body, escaping as Python does with
`ensure_ascii=False` (quote, backslash and control characters). -/
def escapeStr (s : List Char) : List Char :=
  s.foldl (fun acc c =>
    if c = '"' then acc ++ ['\\', '"']
    else if c = '\\' then acc ++ ['\\', '\\']
    else if c = '\n' then acc ++ ['\\', 'n']
    else if c = '\t' then acc ++ ['\\', 't']
    else if c = '\r' then acc ++ ['\\', 'r']
    else if c = '\x08' then acc ++ ['\\', 'b']
    else if c = '\x0c' then acc ++ ['\\', 'f']
    else if c.toNat < 32 then
      acc ++ ('\\' :: 'u' :: '0' :: '0' :: natDigits (c.toNat / 16) ++ natDigits (c.toNat % 16))
    else acc ++ [c]) []

/-- Decimal rendering of a rational whose denominator divides a power of ten
(integers render without a point). The claims only serialize integer-valued
records; Python's float `repr` is otherwise outside this model. -/
def numStr (q : ℚ) : List Char :=
  if q.den = 1 then intStr q.num
  else
    let k := (List.range 64).findIdx (fun k => 10 ^ k % q.den = 0)
    let scaled := q.num * ((10 ^ k / q.den : ℕ) : ℤ)
    let sign : List Char := if scaled < 0 then ['-'] else []
    let ds := natDigits scaled.natAbs
    let ds := if ds.length ≤ k then List.replicate (k + 1 - ds.length) '0' ++ ds else ds
    sign ++ ds.take (ds.length - k) ++ '.' :: ds.drop (ds.length - k)

def indentOf (lvl : Nat) : List Char :=
  List.replicate (2 * lvl) ' '

mutual

/-- `json.dump(v, f, ensure_ascii=False, indent=2)` at nesting level `lvl`. -/
def dumpJson (lvl : Nat) : Json → List Char
  | .null => "null".data
  | .bool b => if b then "true".data else "false".data
  | .num q => numStr q
  | .str s => '"' :: escapeStr s ++ ['"']
  | .arr [] => ['[', ']']
  | .arr (x :: xs) =>
    '[' :: '\n' :: indentOf (lvl + 1) ++ dumpJson (lvl + 1) x
      ++ dumpArrRest lvl xs ++ '\n' :: indentOf lvl ++ [']']
  | .obj [] => ['\x7b', '\x7d']
  | .obj ((k, v) :: kvs) =>
    '\x7b' :: '\n' :: indentOf (lvl + 1) ++ '"' :: escapeStr k ++ '"' :: ':' :: ' ' :: dumpJson (lvl + 1) v
      ++ dumpObjRest lvl kvs ++ '\n' :: indentOf lvl ++ ['\x7d']

def dumpArrRest (lvl : Nat) : List Json → List Char
  | [] => []
  | x :: xs => ',' :: '\n' :: indentOf (lvl + 1) ++ dumpJson (lvl + 1) x ++ dumpArrRest lvl xs

def dumpObjRest (lvl : Nat) : Dict → List Char
  | [] => []
  | (k, v) :: kvs =>
    ',' :: '\n' :: indentOf (lvl + 1) ++ '"' :: escapeStr k ++ '"' :: ':' :: ' ' :: dumpJson (lvl + 1) v
      ++ dumpObjRest lvl kvs

end

/-! ### `utils/gemini_client.py`: `_extract_json_from_response`

The source first runs `re.search` with the DOTALL pattern
 ``` (?:json)? \s* (\{.*?\}) \s* ``` ; otherwise it slices from the first
`{` by naive brace-depth counting (strings are not treated specially, as in
the source). The regex model below is deterministic because the character
classes involved (`json` literal, whitespace, `{`, backtick) are disjoint, so
backtracking never changes the outcome: the leftmost viable start wins and
the lazy group takes the first `}` from which `\s*` + backticks complete. -/

def skipRegexWs (cs : List Char) : List Char :=
  cs.dropWhile isWsChar

/-- Lazy group closing: scan for the first `}` after which (maximal)
whitespace is followed by three backticks; returns the group content. -/
def fenceClose : List Char → List Char → Option (List Char)
  | [], _ => none
  | c :: rest, acc =>
    if c = '\x7d' ∧ prefixL ['`', '`', '`'] (skipRegexWs rest) then some (acc ++ ['\x7d'])
    else fenceClose rest (acc ++ [c])

/-- Try to match the fenced-block pattern starting exactly here. -/
def matchFenceAt (cs : List Char) : Option (List Char) :=
  if prefixL ['`', '`', '`'] cs then
    let afterTicks := cs.drop 3
    let body := if prefixL ['j', 's', 'o', 'n'] afterTicks then afterTicks.drop 4 else afterTicks
    match skipRegexWs body with
    | '\x7b' :: rest => fenceClose rest ['\x7b']
    | _ => none
  else none

/-- `re.search`: try every start position left to right. -/
def fenceSearch : List Char → Option (List Char)
  | [] => none
  | c :: rest => (matchFenceAt (c :: rest)).orElse (fun _ => fenceSearch rest)

/-- The source's brace-depth loop from the first `{` (depth as an integer,
slice emitted when the count returns to zero). -/
def braceScan : List Char → ℤ → List Char → Option (List Char)
  | [], _, _ => none
  | c :: rest, d, acc =>
    if c = '\x7b' then braceScan rest (d + 1) (acc ++ [c])
    else if c = '\x7d' then
      if d - 1 = 0 then some (acc ++ [c]) else braceScan rest (d - 1) (acc ++ [c])
    else braceScan rest d (acc ++ [c])

/-- Slice `text[start_idx:i+1]` for the first `{` and its matching `}`;
`none` when there is no `{` or the braces never rebalance. -/
def firstBraceSpan : List Char → Option (List Char)
  | [] => none
  | c :: rest => if c = '\x7b' then braceScan (c :: rest) 0 [] else firstBraceSpan rest

/-- `_extract_json_from_response`: empty input raises; else take the fenced
block if the regex matches, otherwise the first balanced brace span (the
whole text when there is none), and `json.loads` the result. -/
def extractJson (t : List Char) : Except String Json :=
  if t = [] then .error "响应文本为空"
  else
    let body := match fenceSearch t with
      | some g => g
      | none => (firstBraceSpan t).getD t
    loads body

/-! ### `utils/gemini_client.py`: the response-parsing tail of `filter_image` -/

/-- The conservative failure dictionary built in `filter_image`'s `except`
branches, in source field order. -/
def failDict (reason : List Char) : Dict :=
  [("passed".data, .bool false), ("basic_score".data, .num 0),
   ("bonus_score".data, .num 0), ("total_score".data, .num 0),
   ("reason".data, .str reason), ("confidence".data, .num 0)]

/-- The six `result.setdefault` calls of `filter_image`, in source order. -/
def applyDefaults (d : Dict) : Dict :=
  let d := setdefault d "passed".data (.bool false)
  let d := setdefault d "reason".data (.str "无法解析筛选结果".data)
  let d := setdefault d "confidence".data (.num (mkRat 1 2))
  let d := setdefault d "basic_score".data (.num 0)
  let d := setdefault d "bonus_score".data (.num 0)
  setdefault d "total_score".data (.num 0)

/-- What `filter_image` returns as a function of the model-response text:
extraction/parse errors are `ValueError`s caught into the failure dictionary
with `confidence=0.0`; a parsed non-object hits `setdefault` with an
`AttributeError`, caught by the generic handler into the same failure shape
(the model keeps an abbreviated message); a parsed object gets the missing
fields backfilled. Total by construction: no input raises. -/
def filterOnResponse (t : List Char) : Dict :=
  match extractJson t with
  | .error e => failDict (("筛选过程出错: " ++ e).data)
  | .ok (.obj kvs) => applyDefaults kvs
  | .ok _ => failDict "未预期错误: AttributeError".data

/-! ### `src/router.py`: pipeline types and the keyword/regex stage

The router's patterns use only literal characters, `\s+` and `.*`, so a
three-token regex core suffices. The source searches with `re.IGNORECASE`
over the already lower-cased question and all-lower-case patterns, which the
model reflects by matching characters directly. -/

inductive PipelineType where
  | question | caption | place_recognition | text_association
  | object_proportion | object_position | object_absence
  | object_orientation | object_counting
  deriving DecidableEq, Repr

/-- `PipelineType.value`. -/
def ptValue : PipelineType → List Char
  | .question => "question".data
  | .caption => "caption".data
  | .place_recognition => "place_recognition".data
  | .text_association => "text_association".data
  | .object_proportion => "object_proportion".data
  | .object_position => "object_position".data
  | .object_absence => "object_absence".data
  | .object_orientation => "object_orientation".data
  | .object_counting => "object_counting".data

def allPipelineTypes : List PipelineType :=
  [.question, .caption, .place_recognition, .text_association, .object_proportion,
   .object_position, .object_absence, .object_orientation, .object_counting]

/-- `PipelineType(value)`: `none` models the `ValueError`. -/
def ptFromValue (s : List Char) : Option PipelineType :=
  allPipelineTypes.find? (fun pt => ptValue pt = s)

/-- Regex tokens occurring in the router's patterns. -/
inductive RTok where
  | lit : Char → RTok
  | ws : RTok
  | dot : RTok

/-- Translate a pattern source string: `\s+` and `.*` become the two
non-literal tokens, everything else is literal. -/
def toPat : List Char → List RTok
  | '\\' :: 's' :: '+' :: rest => .ws :: toPat rest
  | '.' :: '*' :: rest => .dot :: toPat rest
  | c :: rest => .lit c :: toPat rest
  | [] => []

/-- Match a token list at the start of the string (`\s+` needs one or more
whitespace characters, `.*` any characters except newline). Every step
shortens pattern-plus-string, so the fuel `rmatch` supplies is enough. -/
def rmatchF : Nat → List RTok → List Char → Bool
  | 0, _, _ => false
  | f + 1, ps, cs =>
    match ps, cs with
    | [], _ => true
    | .lit _ :: _, [] => false
    | .lit c :: ps', x :: xs => x = c && rmatchF f ps' xs
    | .ws :: _, [] => false
    | .ws :: ps', x :: xs => isWsChar x && (rmatchF f ps' xs || rmatchF f (.ws :: ps') xs)
    | .dot :: ps', xs =>
      rmatchF f ps' xs ||
        (match xs with
         | [] => false
         | x :: rest => x ≠ '\n' && rmatchF f (.dot :: ps') rest)

def rmatch (ps : List RTok) (cs : List Char) : Bool :=
  rmatchF (ps.length + cs.length + 1) ps cs

/-- `re.search`: does the pattern match anywhere in the string? -/
def rsearch (p : List RTok) : List Char → Bool
  | [] => rmatch p []
  | c :: rest => rmatch p (c :: rest) || rsearch p rest

/-- `Router.pipeline_keywords` (insertion order of the source dict):
keywords and regular-expression pattern sources per pipeline. -/
def pipelineKeywords : List (PipelineType × (List (List Char) × List (List Char))) :=
  [(.question,
    (["term".data, "matches".data, "concept".data, "which term".data],
     ["which\\s+term\\s+matches".data, "what\\s+term\\s+best\\s+describes".data])),
   (.caption,
    (["caption".data, "description".data, "describe".data, "correct caption".data],
     ["which.*correct\\s+caption".data, "best\\s+caption".data, "describe.*image".data])),
   (.place_recognition,
    (["place".data, "location".data, "name of the place".data],
     ["name\\s+of.*place".data, "what.*place.*shown".data, "identify.*location".data])),
   (.text_association,
    (["associated text".data, "twitter".data, "social media".data, "caption for".data],
     ["associated\\s+text".data, "text.*with.*image".data, "posted\\s+on".data])),
   (.object_proportion,
    (["proportion".data, "percentage".data, "how much".data, "occupied by".data],
     ["what\\s+proportion".data, "how\\s+much.*occupied".data, "percentage.*image".data])),
   (.object_position,
    (["where".data, "located".data, "position".data, "location of".data],
     ["where\\s+is.*located".data, "position\\s+of".data, "location\\s+in".data])),
   (.object_absence,
    (["doesn't have".data, "without".data, "no".data, "absent".data, "which corner".data],
     ["doesn't\\s+have".data, "which.*no\\s+".data, "corner.*without".data])),
   (.object_orientation,
    (["direction".data, "facing".data, "oriented".data, "which way".data],
     ["which\\s+direction.*facing".data, "facing\\s+which".data, "oriented\\s+towards".data])),
   (.object_counting,
    (["how many".data, "count".data, "number of".data],
     ["how\\s+many".data, "count.*in".data, "number\\s+of".data]))]

/-- The per-pipeline score of `_match_by_keywords`: one point per keyword
substring, two per matching pattern. -/
def keywordEntryScore (ql : List Char) (entry : List (List Char) × List (List Char)) : Nat :=
  (entry.1.filter (fun kw => containsL ql (lowerL kw))).length
    + 2 * (entry.2.filter (fun p => rsearch (toPat p) ql)).length

/-- `_match_by_keywords`: lower-case and strip the question, keep the
positive scores, return all pipelines attaining the maximum. -/
def matchByKeywords (q : List Char) : List PipelineType :=
  let ql := stripL (lowerL q)
  let scores := pipelineKeywords.filterMap
    (fun e => let s := keywordEntryScore ql e.2; if s > 0 then some (e.1, s) else none)
  match scores with
  | [] => []
  | _ =>
    let mx := (scores.map Prod.snd).foldl max 0
    (scores.filter (fun e => e.2 = mx)).map Prod.fst

/-- `_match_pipeline_by_question`. The semantic stage is abstracted by
`llmResult` (what `_match_by_llm` would return, `[]` on failure or low
confidence); the returned boolean records whether that stage was invoked. -/
def matchPipelineByQuestion (useLlm : Bool) (llmResult : List PipelineType)
    (q : List Char) : List PipelineType × Bool :=
  if q = [] then ([], false)
  else
    let km := matchByKeywords (stripL q)
    if km.length = 1 then (km, false)
    else if useLlm then
      (if llmResult ≠ [] then llmResult else km, true)
    else (km, false)

/-! ### `config.py`: the `PIPELINE_CONFIG` criteria table

Only the criteria lists matter to the claims (names, descriptions and
canonical questions are prompt data). A criterion is "optional" exactly when
its text carries the `[optional]` prefix that the rubric prompt shows to the
model; nothing else in the code inspects it. -/

def pipelineCriteria : PipelineType → List (List Char)
  | .question =>
    ["Exactly one primary object is present in the image".data,
     "Primary object exhibits visually identifiable features that correspond to the target concept".data,
     "Object boundaries are visually clear and separable from the background".data]
  | .caption =>
    ["Image depicts a real-world photographic scene (not illustration, diagram, or synthetic image)".data,
     "Multiple objects of different semantic types are present".data,
     "Objects have clearly distinguishable spatial positions and relationships".data,
     "Objects are contextually consistent with the background environment".data,
     "Most objects are largely complete and not heavily occluded".data,
     "[optional] Empty or background-only regions do not exceed approximately one-third of the image".data]
  | .place_recognition =>
    ["Image shows a real and non-fictional geographic location".data,
     "Map-style image includes a visually highlighted target region".data,
     "Highlighted region is positioned near the image center".data,
     "Highlighted region occupies at least half of the image area".data,
     "Location identity can be inferred from visual information alone without external text".data]
  | .text_association =>
    ["Exactly one primary object is present".data,
     "Primary object is positioned near the image center".data,
     "Primary object occupies the majority of the image area (approximately 70–80%)".data,
     "Primary object is visually salient and unambiguous".data]
  | .object_proportion =>
    ["Image contains at least one visually salient object category that can serve as a potential target, even if not explicitly specified in the query".data,
     "Target object is complete or sufficiently recognizable for size estimation".data,
     "Image is not fully dominated by a single object covering nearly the entire frame".data,
     "Target object boundaries are visually discernible".data,
     "Target object category is clearly defined without conceptual ambiguity".data,
     "[optional] Target object may be absent from the image, requiring a zero-proportion judgment".data]
  | .object_position =>
    ["Image contains at least one visually salient object that can serve as a potential target".data,
     "At least one such object has visually identifiable boundaries or distinguishable parts".data,
     "At least one such object can be treated as a single coherent entity for localization".data,
     "[optional] Image contains visually similar objects that may act as distractors".data,
     "[optional] Potential target object occupies a relatively small region of the image".data,
     "[optional] Potential target object is partially visible (e.g., body parts, silhouette, color patch)".data,
     "[optional] Potential target object appears in challenging regions (shadows, background, corners, or partial occlusion)".data]
  | .object_absence =>
    ["Image contains at least one visually salient object category that can serve as a potential target, even if not explicitly specified in the query".data,
     "Objects in the image have visually clear boundaries".data,
     "Objects occupy a substantial portion of the image area".data,
     "Target object category is clearly defined".data,
     "Image can be partitioned into distinct and identifiable spatial regions (e.g., four corners)".data]
  | .object_orientation =>
    ["Image contains at least one visually salient object that can serve as a target instance, even if the query does not explicitly specify the object".data,
     "Target object has an identifiable front, head, or directional indicator".data,
     "Question refers to a single target object instance".data,
     "[optional] Target object occupies a small portion of the image".data,
     "[optional] Target object is partially occluded or visually blurred".data,
     "[optional] Image contains interacting or overlapping objects requiring disambiguation".data,
     "[optional] Orientation judgment requires fine-grained directional discrimination".data]
  | .object_counting =>
    ["Image contains at least one visually identifiable object category that can be counted, even if the target category is not explicitly specified in the query".data,
     "Target objects are countable as discrete instances".data,
     "[optional] Target objects are partially visible or truncated".data,
     "[optional] Image contains visually similar distractor objects".data,
     "[optional] Target objects overlap or occlude each other".data,
     "[optional] Target objects appear under unusual poses, rotations, or viewpoints".data,
     "[optional] Target objects visually blend with background colors or textures".data,
     "[optional] Image contains zero instances of the target object".data,
     "[optional] Multiple visually similar object subtypes may need to be jointly counted".data,
     "[optional] Object appearance varies due to packaging, surface decoration, or deformation".data,
     "[optional] Image exhibits challenging visual conditions (low light, blur, reflections)".data,
     "[optional] Mirrors or reflections introduce duplicated or misleading object appearances".data]

/-- Does the pipeline define any criterion marked `[optional]`? -/
def hasOptionalCriterion (pt : PipelineType) : Bool :=
  (pipelineCriteria pt).any (fun c => prefixL "[optional]".data c)

/-! ### `main.py`: `_process_single_item_worker`

A task item carries `image_input`, `pipeline_types` and arbitrary
pass-through fields. `none` for `imageInput` models a missing key (the
`item["image_input"]` lookup then raises `KeyError`, caught by the outer
handler). A `pipeline_types` entry is a string, an actual `PipelineType`
object (as produced by `route_from_json`), or some other value. -/

inductive RouteEntry where
  | rstr : List Char → RouteEntry
  | rpt : PipelineType → RouteEntry
  | rjunk : RouteEntry

structure Item where
  imageInput : Option Json
  pipelineTypes : List RouteEntry
  passthrough : Dict

/-- `original_data`: every field except `image_input` and `pipeline_types`. -/
def originalData (item : Item) : Dict :=
  item.passthrough

/-- An error record `{**original_data, "error": msg, "timestamp": ts}`. -/
def errRecord (item : Item) (msg ts : List Char) : Dict :=
  dictUnion (originalData item) [("error".data, .str msg), ("timestamp".data, .str ts)]

/-- `routes[0]` resolution: a string goes through `PipelineType(...)`
(`ValueError` on failure), a `PipelineType` passes `isinstance`, anything
else fails the `isinstance` check. -/
def resolveEntry : RouteEntry → Except (List Char) PipelineType
  | .rstr s =>
    match ptFromValue s with
    | some pt => .ok pt
    | none => .error ("Invalid pipeline type: ".data ++ s)
  | .rpt pt => .ok pt
  | .rjunk => .error "Invalid pipeline type: ".data

/-- `_process_single_item_worker` as a function of a `filter` oracle (what
`pipeline.filter(image_input)` returns for the chosen pipeline, or the
message of the exception it raises) and the wall-clock timestamp. Returns
the produced record together with the list of pipelines on which `filter`
was invoked. All nine pipeline classes exist in the source lookup table, so
the `Pipeline not found` branch is unreachable and not modelled. -/
def workerStep (oracle : PipelineType → Except (List Char) Dict) (ts : List Char)
    (item : Item) : Dict × List PipelineType :=
  match item.imageInput with
  | none =>
    (dictPop (errRecord item "Unexpected error: 'image_input'".data ts) "image_input".data, [])
  | some _ =>
    match item.pipelineTypes with
    | [] => (errRecord item "No pipeline recognized".data ts, [])
    | first :: _ =>
      match resolveEntry first with
      | .error msg => (errRecord item msg ts, [])
      | .ok pt =>
        match oracle pt with
        | .ok fr =>
          (dictPop
            (dictInsert
              (dictInsert (dictUnion (originalData item) fr)
                "pipeline_type".data (.str (ptValue pt)))
              "timestamp".data (.str ts))
            "image_input".data, [pt])
        | .error e =>
          (dictPop (errRecord item ("Unexpected error: ".data ++ e) ts) "image_input".data, [pt])

/-! ### `main.py`: the collection loop of `process_json`

Futures complete in an arbitrary order; `order` is that completion order (a
permutation of the input tasks). Each future yields one result, appended to
`results`; a raising future is converted to an error record on the spot. -/

/-- The record the collection loop keeps for one completed future — its
result, or the error record built in the `except` branch. -/
def engineRecord (outcome : Item → Except (List Char) Dict) (ts : List Char)
    (it : Item) : Dict :=
  match outcome it with
  | .ok r => r
  | .error e => errRecord it e ts

def engineCollect (outcome : Item → Except (List Char) Dict) (ts : List Char)
    (order : List Item) : List Dict :=
  order.map (engineRecord outcome ts)

/-- `l[-n:]`. -/
def takeLast (n : Nat) (l : List α) : List α :=
  l.drop (l.length - n)

/-- The checkpoint handoffs of the collection loop: after each completion the
counter is checked, and when `save_interval > 0` divides it, the batch
`results[-save_interval:]` is passed to `_append_results`. -/
def runCheckpoints (n : Nat) (done : List α) : List α → List (List α)
  | [] => []
  | r :: rest =>
    let done' := done ++ [r]
    (if 0 < n ∧ done'.length % n = 0 then [takeLast n done'] else [])
      ++ runCheckpoints n done' rest

def checkpointBatches (n : Nat) (rs : List α) : List (List α) :=
  runCheckpoints n [] rs

/-- What reaches the output file by the end of a run with checkpoint
interval `n` and an output path (`main`): if any checkpoint fired, the file
exists and `main` skips the final save, so the file holds exactly the
checkpointed batches; otherwise `save_results` writes the full list. -/
def persistedRecords (n : Nat) (rs : List α) : List α :=
  if 0 < n ∧ (checkpointBatches n rs).isEmpty = false then (checkpointBatches n rs).flatten
  else rs

/-! ### `main.py`: `_append_results` (the IncrementalWriter)

File contents are `List Char`. The second argument is the current file
content (`none`: the file does not exist). The result is `none` only when
the read-modify-write fallback itself raises (a parseable file that is not
an array), which the source lets propagate. -/

/-- The batch items comma-joined, as the write loop emits them. -/
def dumpRecords : List Json → List Char
  | [] => []
  | [r] => dumpJson 0 r
  | r :: rest => dumpJson 0 r ++ ',' :: '\n' :: dumpRecords rest

/-- Content written on the file-not-found path (also reached, through
`seek(0)`/overwrite, when an existing file has at most two bytes). -/
def freshContent (results : List Json) : List Char :=
  '[' :: '\n' :: dumpRecords results ++ '\n' :: [']']

/-- Index of the last `]` in a list (rightmost occurrence wins). -/
def lastIdxRB : List Char → Option Nat
  | [] => none
  | c :: rest =>
    match lastIdxRB rest with
    | some j => some (j + 1)
    | none => if c = ']' then some 0 else none

/-- The backward scan for `]`: positions `len-1` down to `1` are examined
(index 0 is never read because the loop stops when `tell()` reaches 0), so
this is the last `]` among positions `≥ 1`. -/
def lastRBracketIdx (s : List Char) : Option Nat :=
  (lastIdxRB (s.drop 1)).map (fun j => j + 1)

/-- The read-parse-extend-rewrite fallback: a non-parseable file counts as
empty; a parseable non-array makes `extend` raise `AttributeError`, which is
not caught (`none`). -/
def fallbackRewrite (s : List Char) (results : List Json) : Option (List Char) :=
  match loads s with
  | .ok (.arr xs) => some (dumpJson 0 (.arr (xs ++ results)))
  | .ok _ => none
  | .error _ => some (dumpJson 0 (.arr results))

/-- `_append_results`. On the append path the file is truncated at one
character *before* the found `]` (the source's `f.seek(f.tell() - 1)`
before `truncate`, sized for the `\n]` suffix this writer leaves), then the
separator, the batch and a closing `\n]` are written. A backward scan that
finds no `]` ends in a negative seek whose `ValueError` triggers the
fallback. -/
def appendResults (results : List Json) (file : Option (List Char)) : Option (List Char) :=
  match file with
  | none => some (freshContent results)
  | some s =>
    if s.length > 2 then
      match lastRBracketIdx s with
      | some i => some (s.take (i - 1) ++ ',' :: '\n' :: dumpRecords results ++ '\n' :: [']'])
      | none => fallbackRewrite s results
    else some (freshContent results)

/-! ### Concrete inputs used by the claims -/

/-- A model verdict reporting `passed=false` together with nonzero scores. -/
def c1Response : List Char :=
  "\x7b\"passed\": false, \"basic_score\": 0.4, \"bonus_score\": 0.3, \"total_score\": 0.7, \"reason\": \"r\", \"confidence\": 0.9\x7d".data

/-- The spec's fenced-response scenario. -/
def c6Scenario : List Char :=
  "Sure! ```json\n\x7b\"passed\": true, \"basic_score\":0.5,\"bonus_score\":0.3,\"total_score\":0.8,\"reason\":\"ok\",\"confidence\":0.9\x7d\n```".data

/-- The verdict object embedded in `c6Scenario`, as `json.loads` yields it. -/
def c6ScenarioObj : Dict :=
  [("passed".data, .bool true), ("basic_score".data, .num (mkRat 1 2)),
   ("bonus_score".data, .num (mkRat 3 10)), ("total_score".data, .num (mkRat 4 5)),
   ("reason".data, .str "ok".data), ("confidence".data, .num (mkRat 9 10))]

/-- A small balanced JSON object without a `"passed"` key. -/
def c6Obj : List Char := "\x7b\"x\": 1\x7d".data

/-- Commentary containing a balanced object without `"passed"` before the
verdict object. -/
def c6Counter : List Char :=
  "Note \x7b\"x\": 1\x7d then \x7b\"passed\": true\x7d".data

/-- A gate-passing verdict for a pipeline without optional criteria whose
bonus is not 0.4. -/
def c10Response : List Char :=
  "\x7b\"passed\": true, \"basic_score\": 0.5, \"bonus_score\": 0.2, \"total_score\": 0.7, \"reason\": \"r\", \"confidence\": 0.9\x7d".data

/-- `c10Response` as `json.loads` parses it. -/
def c10Parsed : Dict :=
  [("passed".data, .bool true), ("basic_score".data, .num (mkRat 1 2)),
   ("bonus_score".data, .num (mkRat 1 5)), ("total_score".data, .num (mkRat 7 10)),
   ("reason".data, .str "r".data), ("confidence".data, .num (mkRat 9 10))]

/-- The records of the writer scenario. -/
def recA : Json := .obj [("a".data, .num 1)]

def recB : Json := .obj [("b".data, .num 2)]

/-- The spec's routing-scenario question. -/
def c7Question : List Char := "How many dogs are in the picture?".data

/-- A filter oracle that tags its result with the pipeline it served. -/
def tagOracle : PipelineType → Except (List Char) Dict :=
  fun pt => .ok [("passed".data, .bool true), ("marker".data, .str (ptValue pt))]

/-- A filter oracle whose model call raises. -/
def raiseOracle : PipelineType → Except (List Char) Dict :=
  fun _ => .error "ConnectionError".data

/-- A task routed to two pipelines. -/
def c8Item : Item :=
  ⟨some (.str "img.jpg".data), [.rpt .question, .rpt .caption], [("id".data, .num 7)]⟩

/-- A task whose route decision is empty. -/
def c9ItemEmpty : Item :=
  ⟨some (.str "b.jpg".data), [], [("id".data, .num 2)]⟩

/-- A two-task batch: one normally routed task and one with an empty route. -/
def c9Items : List Item :=
  [⟨some (.str "a.jpg".data), [.rpt .object_counting], [("id".data, .num 1)]⟩,
   c9ItemEmpty]

/-- A future-level outcome: the second task's future raises. -/
def c9Outcome : Item → Except (List Char) Dict :=
  fun it =>
    match it.pipelineTypes with
    | [] => .error "boom".data
    | _ => .ok (workerStep tagOracle "T0".data it).1

/-! ## Association-list lemmas -/

theorem lookup_append (d e : Dict) (k : List Char) :
    lookup (d ++ e) k = (lookup d k).orElse (fun _ => lookup e k) := by
  induction d with
  | nil => simp [lookup]
  | cons kv rest ih =>
    obtain ⟨k', v⟩ := kv
    by_cases hk : k' = k
    · simp [lookup, hk]
    · simp [lookup, hk, ih]

theorem lookup_setdefault_self (d : Dict) (k : List Char) (v : Json) :
    lookup (setdefault d k v) k = some ((lookup d k).getD v) := by
  unfold setdefault
  cases h : lookup d k with
  | some x => simp [h]
  | none => simp [h, lookup_append, lookup]

theorem lookup_setdefault_ne {d : Dict} {k v : _} {k' : List Char} (h : k' ≠ k) :
    lookup (setdefault d k v) k' = lookup d k' := by
  unfold setdefault
  by_cases hs : (lookup d k).isSome
  · simp [hs]
  · rw [if_neg hs, lookup_append]
    cases hx : lookup d k' with
    | some x => simp [hx]
    | none => simp [hx, lookup, Ne.symm h]

theorem lookup_dictInsert_self (d : Dict) (k : List Char) (v : Json) :
    lookup (dictInsert d k v) k = some v := by
  induction d with
  | nil => simp [dictInsert, lookup]
  | cons kv rest ih =>
    obtain ⟨k', v'⟩ := kv
    by_cases hk : k' = k
    · simp [dictInsert, hk, lookup]
    · simp [dictInsert, hk, lookup, ih]

theorem lookup_dictInsert_ne {d : Dict} {k v : _} {k' : List Char} (h : k' ≠ k) :
    lookup (dictInsert d k v) k' = lookup d k' := by
  induction d with
  | nil => simp [dictInsert, lookup, Ne.symm h]
  | cons kv rest ih =>
    obtain ⟨k1, v1⟩ := kv
    simp only [dictInsert]
    by_cases hk : k1 = k
    · subst hk
      simp [lookup, Ne.symm h]
    · simp only [if_neg hk, lookup]
      rw [ih]

theorem lookup_dictPop_ne {d : Dict} {k k' : List Char} (h : k' ≠ k) :
    lookup (dictPop d k) k' = lookup d k' := by
  induction d with
  | nil => rfl
  | cons kv rest ih =>
    obtain ⟨k1, v1⟩ := kv
    simp only [dictPop]
    by_cases hk : k1 = k
    · subst hk
      simp [lookup, Ne.symm h, ih]
    · simp only [if_neg hk, lookup]
      rw [ih]

theorem lookup_dictUnion_of_notin (a : Dict) {b : Dict} {k : List Char}
    (h : lookup b k = none) : lookup (dictUnion a b) k = lookup a k := by
  induction b generalizing a with
  | nil => simp [dictUnion]
  | cons kv rest ih =>
    obtain ⟨k1, v1⟩ := kv
    have hk1 : k1 ≠ k := by
      intro hh
      simp [lookup, hh] at h
    have hrest : lookup rest k = none := by
      simpa [lookup, hk1] using h
    have : dictUnion a ((k1, v1) :: rest) = dictUnion (dictInsert a k1 v1) rest := rfl
    rw [this, ih _ hrest, lookup_dictInsert_ne (fun hh => hk1 hh.symm)]

/-! ## The six `setdefault` calls of `filter_image`, field by field -/

theorem lookup_applyDefaults_passed (d : Dict) :
    lookup (applyDefaults d) "passed".data =
      some ((lookup d "passed".data).getD (.bool false)) := by
  simp only [applyDefaults]
  rw [lookup_setdefault_ne (by decide), lookup_setdefault_ne (by decide),
      lookup_setdefault_ne (by decide), lookup_setdefault_ne (by decide),
      lookup_setdefault_ne (by decide), lookup_setdefault_self]

theorem lookup_applyDefaults_reason (d : Dict) :
    lookup (applyDefaults d) "reason".data =
      some ((lookup d "reason".data).getD (.str "无法解析筛选结果".data)) := by
  simp only [applyDefaults]
  rw [lookup_setdefault_ne (by decide), lookup_setdefault_ne (by decide),
      lookup_setdefault_ne (by decide), lookup_setdefault_ne (by decide),
      lookup_setdefault_self, lookup_setdefault_ne (by decide)]

theorem lookup_applyDefaults_confidence (d : Dict) :
    lookup (applyDefaults d) "confidence".data =
      some ((lookup d "confidence".data).getD (.num (mkRat 1 2))) := by
  simp only [applyDefaults]
  rw [lookup_setdefault_ne (by decide), lookup_setdefault_ne (by decide),
      lookup_setdefault_ne (by decide), lookup_setdefault_self,
      lookup_setdefault_ne (by decide), lookup_setdefault_ne (by decide)]

theorem lookup_applyDefaults_basic (d : Dict) :
    lookup (applyDefaults d) "basic_score".data =
      some ((lookup d "basic_score".data).getD (.num 0)) := by
  simp only [applyDefaults]
  rw [lookup_setdefault_ne (by decide), lookup_setdefault_ne (by decide),
      lookup_setdefault_self, lookup_setdefault_ne (by decide),
      lookup_setdefault_ne (by decide), lookup_setdefault_ne (by decide)]

theorem lookup_applyDefaults_bonus (d : Dict) :
    lookup (applyDefaults d) "bonus_score".data =
      some ((lookup d "bonus_score".data).getD (.num 0)) := by
  simp only [applyDefaults]
  rw [lookup_setdefault_ne (by decide), lookup_setdefault_self,
      lookup_setdefault_ne (by decide), lookup_setdefault_ne (by decide),
      lookup_setdefault_ne (by decide), lookup_setdefault_ne (by decide)]

theorem lookup_applyDefaults_total (d : Dict) :
    lookup (applyDefaults d) "total_score".data =
      some ((lookup d "total_score".data).getD (.num 0)) := by
  simp only [applyDefaults]
  rw [lookup_setdefault_self, lookup_setdefault_ne (by decide),
      lookup_setdefault_ne (by decide), lookup_setdefault_ne (by decide),
      lookup_setdefault_ne (by decide), lookup_setdefault_ne (by decide)]

/-! ## Claim C1 -/

/-- C1 (counterexample): `filter_image` does not enforce the gate — a model
verdict with `passed=false` and nonzero scores is returned unchanged, so
`passed == false` does not imply `total_score == 0` (nor zero basic/bonus). -/
theorem C1_counterexample :
    lookup (filterOnResponse c1Response) "passed".data = some (.bool false) ∧
    lookup (filterOnResponse c1Response) "total_score".data = some (.num (mkRat 7 10)) ∧
    lookup (filterOnResponse c1Response) "basic_score".data = some (.num (mkRat 2 5)) ∧
    lookup (filterOnResponse c1Response) "bonus_score".data = some (.num (mkRat 3 10)) ∧
    mkRat 7 10 ≠ 0 :=
  ⟨rfl, rfl, rfl, rfl, by decide⟩

/-- C1 (amended): for every model-response text, a returned result with
`passed=false` has `total_score = 0` unless the parsed model JSON itself
reported the total — the parser's error and missing-field paths satisfy the
gate, but a model-reported `total_score` passes through unclamped. -/
theorem C1_amended (t : List Char)
    (_hp : lookup (filterOnResponse t) "passed".data = some (.bool false)) :
    lookup (filterOnResponse t) "total_score".data = some (.num 0) ∨
    ∃ kvs, extractJson t = .ok (.obj kvs) ∧
      lookup (filterOnResponse t) "total_score".data = lookup kvs "total_score".data := by
  rcases h : extractJson t with e | j
  · left
    simp only [filterOnResponse, h]
    rfl
  · cases j with
    | obj kvs =>
      rcases hk : lookup kvs "total_score".data with _ | v
      · left
        simp only [filterOnResponse, h]
        rw [lookup_applyDefaults_total, hk]
        rfl
      · right
        refine ⟨kvs, rfl, ?_⟩
        simp only [filterOnResponse, h]
        rw [lookup_applyDefaults_total, hk]
        rfl
    | null => left; simp only [filterOnResponse, h]; rfl
    | bool b => left; simp only [filterOnResponse, h]; rfl
    | num q => left; simp only [filterOnResponse, h]; rfl
    | str s => left; simp only [filterOnResponse, h]; rfl
    | arr xs => left; simp only [filterOnResponse, h]; rfl

/-- C1 (witness): the amended theorem applied to the empty response. -/
theorem C1_amended_witness :
    lookup (filterOnResponse []) "total_score".data = some (.num 0) ∨
    ∃ kvs, extractJson [] = .ok (.obj kvs) ∧
      lookup (filterOnResponse []) "total_score".data = lookup kvs "total_score".data :=
  C1_amended [] rfl

/-! ## Claim C5 -/

/-- C5 (counterexample): when the response cannot be parsed at all (here the
empty text), the degrade path of `filter_image` sets `confidence = 0.0`, not
the `0.5` the claim states (0.5 is only the missing-field backfill). -/
theorem C5_counterexample :
    lookup (filterOnResponse []) "confidence".data = some (.num 0) ∧
    lookup (filterOnResponse []) "passed".data = some (.bool false) ∧
    (0 : ℚ) ≠ mkRat 1 2 :=
  ⟨rfl, rfl, by decide⟩

/-- C5 (amended): `filter_image` returns a result for every response text
(the model is a total function). When no scoring object can be extracted the
result is the conservative fail default with `passed=false`, all scores `0`
and `confidence=0.0`; when an object is parsed, each missing field is
backfilled (`passed=false`, `reason`="无法解析筛选结果", `confidence=0.5`,
scores `0`) and present fields pass through. -/
theorem C5_amended (t : List Char) :
    lookup (filterOnResponse t) "passed".data =
      (match extractJson t with
       | .ok (.obj kvs) => some ((lookup kvs "passed".data).getD (.bool false))
       | _ => some (.bool false)) ∧
    lookup (filterOnResponse t) "basic_score".data =
      (match extractJson t with
       | .ok (.obj kvs) => some ((lookup kvs "basic_score".data).getD (.num 0))
       | _ => some (.num 0)) ∧
    lookup (filterOnResponse t) "bonus_score".data =
      (match extractJson t with
       | .ok (.obj kvs) => some ((lookup kvs "bonus_score".data).getD (.num 0))
       | _ => some (.num 0)) ∧
    lookup (filterOnResponse t) "total_score".data =
      (match extractJson t with
       | .ok (.obj kvs) => some ((lookup kvs "total_score".data).getD (.num 0))
       | _ => some (.num 0)) ∧
    lookup (filterOnResponse t) "confidence".data =
      (match extractJson t with
       | .ok (.obj kvs) => some ((lookup kvs "confidence".data).getD (.num (mkRat 1 2)))
       | _ => some (.num 0)) ∧
    lookup (filterOnResponse t) "reason".data =
      (match extractJson t with
       | .error e => some (.str (("筛选过程出错: " ++ e).data))
       | .ok (.obj kvs) => some ((lookup kvs "reason".data).getD (.str "无法解析筛选结果".data))
       | .ok _ => some (.str "未预期错误: AttributeError".data)) := by
  rcases h : extractJson t with e | j
  · simp only [filterOnResponse, h]
    exact ⟨rfl, rfl, rfl, rfl, rfl, rfl⟩
  · cases j with
    | obj kvs =>
      simp only [filterOnResponse, h]
      exact ⟨lookup_applyDefaults_passed kvs, lookup_applyDefaults_basic kvs,
             lookup_applyDefaults_bonus kvs, lookup_applyDefaults_total kvs,
             lookup_applyDefaults_confidence kvs, lookup_applyDefaults_reason kvs⟩
    | null => simp only [filterOnResponse, h]; exact ⟨rfl, rfl, rfl, rfl, rfl, rfl⟩
    | bool b => simp only [filterOnResponse, h]; exact ⟨rfl, rfl, rfl, rfl, rfl, rfl⟩
    | num q => simp only [filterOnResponse, h]; exact ⟨rfl, rfl, rfl, rfl, rfl, rfl⟩
    | str s => simp only [filterOnResponse, h]; exact ⟨rfl, rfl, rfl, rfl, rfl, rfl⟩
    | arr xs => simp only [filterOnResponse, h]; exact ⟨rfl, rfl, rfl, rfl, rfl, rfl⟩

/-! ## Claim C10 -/

/-- C10 (counterexample): the `question` pipeline has no `[optional]`
criterion, yet a gate-passing verdict reporting `bonus_score = 0.2` is
returned with that bonus — nothing fixes it at `0.4`. -/
theorem C10_counterexample :
    hasOptionalCriterion .question = false ∧
    lookup (filterOnResponse c10Response) "passed".data = some (.bool true) ∧
    lookup (filterOnResponse c10Response) "bonus_score".data = some (.num (mkRat 1 5)) ∧
    mkRat 1 5 ≠ mkRat 2 5 :=
  ⟨rfl, rfl, rfl, by decide⟩

/-- C10 (amended): `question`, `place_recognition`, `text_association` and
`object_absence` indeed define no `[optional]` criteria, but the code never
fixes `bonus_score` at 0.4: for every pipeline the returned bonus is exactly
the model-reported value, defaulting to `0` when missing (the 0.4 convention
exists only in the spec, not in the prompt or parser). -/
theorem C10_amended :
    (hasOptionalCriterion .question = false ∧
     hasOptionalCriterion .place_recognition = false ∧
     hasOptionalCriterion .text_association = false ∧
     hasOptionalCriterion .object_absence = false) ∧
    ∀ t kvs, extractJson t = .ok (.obj kvs) →
      lookup (filterOnResponse t) "bonus_score".data =
        some ((lookup kvs "bonus_score".data).getD (.num 0)) := by
  refine ⟨⟨rfl, rfl, rfl, rfl⟩, fun t kvs h => ?_⟩
  simp only [filterOnResponse, h]
  exact lookup_applyDefaults_bonus kvs

/-- C10 (witness): the amended theorem applied to a concrete gate-passing
verdict for the optional-free `question` pipeline. -/
theorem C10_amended_witness :
    lookup (filterOnResponse c10Response) "bonus_score".data =
      some ((lookup c10Parsed "bonus_score".data).getD (.num 0)) :=
  C10_amended.2 c10Response c10Parsed rfl

/-! ## Claim C6 -/

theorem fenceSearch_eq_none {s : List Char} (h : ∀ c ∈ s, c ≠ '`') :
    fenceSearch s = none := by
  induction s with
  | nil => rfl
  | cons c rest ih =>
    have hc : c ≠ '`' := h c (List.mem_cons_self _ _)
    have hm : matchFenceAt (c :: rest) = none := by
      unfold matchFenceAt
      rw [if_neg]
      simp [prefixL, Ne.symm hc]
    rw [fenceSearch, hm]
    exact ih (fun x hx => h x (List.mem_cons_of_mem _ hx))

theorem firstBraceSpan_append {p : List Char} (s : List Char)
    (h : ∀ c ∈ p, c ≠ '\x7b') :
    firstBraceSpan (p ++ s) = firstBraceSpan s := by
  induction p with
  | nil => rfl
  | cons c rest ih =>
    have hc : c ≠ '\x7b' := h c (List.mem_cons_self _ _)
    rw [List.cons_append, firstBraceSpan, if_neg hc]
    exact ih (fun x hx => h x (List.mem_cons_of_mem _ hx))

/-- C6 (counterexample): with no fence present, extraction takes the *first*
balanced brace span even when it has no `"passed"` key — the unrelated
earlier object `{"x": 1}` is exactly what gets extracted. -/
theorem C6_counterexample :
    extractJson c6Counter = .ok (.obj [("x".data, .num 1)]) ∧
    lookup [("x".data, .num 1)] "passed".data = none :=
  ⟨rfl, rfl⟩

/-- C6 (amended): extraction first takes a fenced block (the spec's fenced
scenario parses to exactly the embedded object); otherwise it takes the
first balanced brace span from the first `{`, with no preference for spans
containing `"passed"`: any balanced object preceded by fence-free,
brace-free commentary is the one extracted, whatever follows it. -/
theorem C6_amended :
    extractJson c6Scenario = .ok (.obj c6ScenarioObj) ∧
    ∀ pre mid : List Char,
      (∀ c ∈ pre, c ≠ '`' ∧ c ≠ '\x7b') → (∀ c ∈ mid, c ≠ '`') →
      extractJson (pre ++ c6Obj ++ mid) = .ok (.obj [("x".data, .num 1)]) := by
  refine ⟨rfl, fun pre mid hpre hmid => ?_⟩
  have hne : pre ++ c6Obj ++ mid ≠ [] := by
    simp [c6Obj]
  have hticks : ∀ c ∈ pre ++ c6Obj ++ mid, c ≠ '`' := by
    intro c hc
    rcases List.mem_append.1 hc with hc1 | hc2
    · rcases List.mem_append.1 hc1 with hp | ho
      · exact (hpre c hp).1
      · exact (by decide : ∀ c ∈ c6Obj, c ≠ '`') c ho
    · exact hmid c hc2
  have hfence := fenceSearch_eq_none hticks
  simp only [extractJson, if_neg hne, hfence]
  rw [List.append_assoc, firstBraceSpan_append _ (fun c hc => (hpre c hc).2)]
  rfl

/-- C6 (witness): the amended theorem applied to concrete commentary. -/
theorem C6_amended_witness :
    extractJson ("Sure: ".data ++ c6Obj ++ " bye".data) = .ok (.obj [("x".data, .num 1)]) :=
  C6_amended.2 "Sure: ".data " bye".data (by decide) (by decide)

/-! ## Claim C7 -/

/-- C7 (confirmed): whenever the keyword stage (one point per keyword
substring, two per matching regex, maximum non-zero scores collected) yields
exactly one pipeline, `_match_pipeline_by_question` returns it at once and
the semantic stage is not invoked — whatever it would have answered; in
particular "How many dogs are in the picture?" routes to exactly
`object_counting` with no model call. -/
theorem C7_confirmed :
    (∀ (useLlm : Bool) (llmRes : List PipelineType) (q : List Char),
        (matchByKeywords (stripL q)).length = 1 →
        matchPipelineByQuestion useLlm llmRes q = (matchByKeywords (stripL q), false)) ∧
    ∀ (useLlm : Bool) (llmRes : List PipelineType),
      matchPipelineByQuestion useLlm llmRes c7Question = ([.object_counting], false) := by
  have main : ∀ (useLlm : Bool) (llmRes : List PipelineType) (q : List Char),
      (matchByKeywords (stripL q)).length = 1 →
      matchPipelineByQuestion useLlm llmRes q = (matchByKeywords (stripL q), false) := by
    intro u l q h
    by_cases hq : q = []
    · subst hq
      exact absurd h (by decide)
    · simp only [matchPipelineByQuestion, if_neg hq, h, if_pos]
  refine ⟨main, fun u l => ?_⟩
  rw [main u l c7Question (by decide)]
  decide

/-- C7 (witness): the short-circuit theorem applied to the scenario
question. -/
theorem C7_witness :
    matchPipelineByQuestion true [] c7Question = (matchByKeywords (stripL c7Question), false) :=
  C7_confirmed.1 true [] c7Question (by decide)

/-! ## Claim C8 -/

/-- C8 (counterexample): a task routed to two pipelines gets exactly one
`filter` call — for the first id only — and its merged record reflects only
that pipeline's result (the `caption` pipeline is never invoked). -/
theorem C8_counterexample :
    (workerStep tagOracle "T0".data c8Item).2 = [PipelineType.question] ∧
    PipelineType.caption ∉ (workerStep tagOracle "T0".data c8Item).2 ∧
    lookup (workerStep tagOracle "T0".data c8Item).1 "pipeline_type".data =
      some (.str "question".data) ∧
    lookup (workerStep tagOracle "T0".data c8Item).1 "marker".data =
      some (.str "question".data) :=
  ⟨rfl, by decide, rfl, rfl⟩

/-- C8 (amended): the per-task step uses `routes[0]` only: for any task with
at least one matched pipeline, `filter` is invoked exactly once, on the
first matched id, and the merged record carries that id as its
`pipeline_type`. -/
theorem C8_amended (oracle : PipelineType → Except (List Char) Dict) (ts : List Char)
    (item : Item) (img : Json) (pt : PipelineType) (rest : List RouteEntry)
    (himg : item.imageInput = some img)
    (hroutes : item.pipelineTypes = .rpt pt :: rest) :
    (workerStep oracle ts item).2 = [pt] ∧
    ∀ fr, oracle pt = .ok fr →
      lookup (workerStep oracle ts item).1 "pipeline_type".data =
        some (.str (ptValue pt)) := by
  cases ho : oracle pt with
  | ok fr =>
    simp only [workerStep, himg, hroutes, resolveEntry, ho]
    refine ⟨trivial, fun fr' _ => ?_⟩
    rw [lookup_dictPop_ne (by decide), lookup_dictInsert_ne (by decide),
        lookup_dictInsert_self]
  | error e =>
    simp only [workerStep, himg, hroutes, resolveEntry, ho]
    exact ⟨trivial, fun fr' hfr' => absurd hfr' (by simp)⟩

/-- C8 (witness): the amended theorem applied to the two-pipeline task. -/
theorem C8_amended_witness :
    (workerStep tagOracle "T0".data c8Item).2 = [PipelineType.question] ∧
    ∀ fr, tagOracle PipelineType.question = .ok fr →
      lookup (workerStep tagOracle "T0".data c8Item).1 "pipeline_type".data =
        some (.str (ptValue PipelineType.question)) :=
  C8_amended tagOracle "T0".data c8Item (.str "img.jpg".data) .question [.rpt .caption] rfl rfl

/-! ## Claim C9 -/

theorem lookup_errRecord_error (it : Item) (e ts : List Char) :
    lookup (errRecord it e ts) "error".data = some (.str e) := by
  show lookup (dictInsert (dictInsert (originalData it) "error".data (.str e))
      "timestamp".data (.str ts)) "error".data = _
  rw [lookup_dictInsert_ne (by decide), lookup_dictInsert_self]

theorem lookup_errRecord_ne (it : Item) (e ts : List Char) {k : List Char}
    (h1 : k ≠ "error".data) (h2 : k ≠ "timestamp".data) :
    lookup (errRecord it e ts) k = lookup it.passthrough k := by
  show lookup (dictInsert (dictInsert (originalData it) "error".data (.str e))
      "timestamp".data (.str ts)) k = _
  rw [lookup_dictInsert_ne h2, lookup_dictInsert_ne h1]
  rfl

/-- C9 (confirmed): the collection loop keeps exactly one record per task —
for any completion order that is a permutation of the input, the output is a
same-length permutation of the per-task records (no drops, no duplicates);
a raising future becomes an error record that keeps the pass-through fields
and carries the error string; inside the worker, a raising `filter` call is
caught into an `Unexpected error` record that keeps the pass-through
fields; and an empty route decision yields a `No pipeline recognized` error
record rather than being dropped. -/
theorem C9_confirmed :
    (∀ (outcome : Item → Except (List Char) Dict) (ts : List Char)
        (items order : List Item), order.Perm items →
        (engineCollect outcome ts order).length = items.length ∧
        (engineCollect outcome ts order).Perm
          (items.map (engineRecord outcome ts))) ∧
    (∀ (outcome : Item → Except (List Char) Dict) (ts : List Char) (it : Item)
        (e : List Char), outcome it = .error e →
        lookup (engineRecord outcome ts it) "error".data = some (.str e) ∧
        ∀ k, k ≠ "error".data → k ≠ "timestamp".data →
          lookup (engineRecord outcome ts it) k = lookup it.passthrough k) ∧
    (∀ (oracle : PipelineType → Except (List Char) Dict) (ts : List Char)
        (item : Item) (img : Json) (pt : PipelineType) (rest : List RouteEntry)
        (e : List Char), item.imageInput = some img →
        item.pipelineTypes = .rpt pt :: rest → oracle pt = .error e →
        lookup (workerStep oracle ts item).1 "error".data =
          some (.str ("Unexpected error: ".data ++ e)) ∧
        ∀ k, k ≠ "error".data → k ≠ "timestamp".data → k ≠ "image_input".data →
          lookup (workerStep oracle ts item).1 k = lookup item.passthrough k) ∧
    (∀ (oracle : PipelineType → Except (List Char) Dict) (ts : List Char)
        (item : Item) (img : Json), item.imageInput = some img →
        item.pipelineTypes = [] →
        lookup (workerStep oracle ts item).1 "error".data =
          some (.str "No pipeline recognized".data) ∧
        ∀ k, k ≠ "error".data → k ≠ "timestamp".data →
          lookup (workerStep oracle ts item).1 k = lookup item.passthrough k) := by
  refine ⟨?_, ?_, ?_, ?_⟩
  · intro outcome ts items order h
    exact ⟨by simp [engineCollect, h.length_eq], h.map _⟩
  · intro outcome ts it e ho
    simp only [engineRecord, ho]
    exact ⟨lookup_errRecord_error it e ts,
           fun k h1 h2 => lookup_errRecord_ne it e ts h1 h2⟩
  · intro oracle ts item img pt rest e himg hroutes ho
    simp only [workerStep, himg, hroutes, resolveEntry, ho]
    constructor
    · rw [lookup_dictPop_ne (by decide)]
      exact lookup_errRecord_error item _ ts
    · intro k h1 h2 h3
      rw [lookup_dictPop_ne h3]
      exact lookup_errRecord_ne item _ ts h1 h2
  · intro oracle ts item img himg hroutes
    simp only [workerStep, himg, hroutes]
    exact ⟨lookup_errRecord_error item _ ts,
           fun k h1 h2 => lookup_errRecord_ne item _ ts h1 h2⟩

/-- C9 (witness): the four parts applied to a concrete two-task batch with a
raising future, a raising `filter` call and an empty route decision. -/
theorem C9_confirmed_witness :
    ((engineCollect c9Outcome "T0".data c9Items).length = c9Items.length ∧
     (engineCollect c9Outcome "T0".data c9Items).Perm
       (c9Items.map (engineRecord c9Outcome "T0".data))) ∧
    lookup (engineRecord c9Outcome "T0".data c9ItemEmpty) "error".data =
      some (.str "boom".data) ∧
    lookup (workerStep raiseOracle "T0".data c8Item).1 "error".data =
      some (.str ("Unexpected error: ".data ++ "ConnectionError".data)) ∧
    lookup (workerStep tagOracle "T0".data c9ItemEmpty).1 "error".data =
      some (.str "No pipeline recognized".data) :=
  ⟨C9_confirmed.1 c9Outcome "T0".data c9Items c9Items (List.Perm.refl _),
   (C9_confirmed.2.1 c9Outcome "T0".data c9ItemEmpty "boom".data rfl).1,
   (C9_confirmed.2.2.1 raiseOracle "T0".data c8Item (.str "img.jpg".data)
      .question [.rpt .caption] "ConnectionError".data rfl rfl rfl).1,
   (C9_confirmed.2.2.2 tagOracle "T0".data c9ItemEmpty (.str "b.jpg".data) rfl rfl).1⟩

/-! ## Claim C2 -/

/-- C2 (evaluation at the failing input): with checkpoint interval 2 and
three completed records, the loop hands the writer one batch, the first two
records, and — because the output file now exists — `main` skips the final
save: the third completed record is never persisted. With a count that the
interval divides, nothing is lost, so the loss is exactly the final partial
batch. -/
theorem C2_tail_loss :
    checkpointBatches 2 [(0 : ℕ), 1, 2] = [[0, 1]] ∧
    persistedRecords 2 [(0 : ℕ), 1, 2] = [0, 1] ∧
    persistedRecords 2 [(0 : ℕ), 1, 2] ≠ [0, 1, 2] ∧
    persistedRecords 2 [(0 : ℕ), 1, 2, 3] = [0, 1, 2, 3] :=
  ⟨rfl, rfl, by decide, rfl⟩

/-! ## Claim C3 -/

/-- C3 (counterexample): appending `[{"b":2}]` to a file whose exact content
is `[{"a":1}]` truncates one character before the final `]`, destroying the
`}` of the first object; the resulting file does not reparse as JSON at
all, let alone as `[{"a":1},{"b":2}]`. -/
theorem C3_counterexample :
    appendResults [recB] (some "[\x7b\"a\":1\x7d]".data) =
      some "[\x7b\"a\":1,\n\x7b\n  \"b\": 2\n\x7d\n]".data ∧
    ∃ e, loads "[\x7b\"a\":1,\n\x7b\n  \"b\": 2\n\x7d\n]".data = .error e :=
  ⟨rfl, _, rfl⟩

/-- C3 (amended): the append path truncates at one character *before* the
last `]`, which removes exactly the `\n]` suffix this writer always leaves;
on the file the writer itself produces for `[{"a":1}]`, appending
`[{"b":2}]` yields a well-formed array that reparses as
`[{"a":1},{"b":2}]`. -/
theorem C3_amended :
    appendResults [recA] none = some "[\n\x7b\n  \"a\": 1\n\x7d\n]".data ∧
    appendResults [recB] (some "[\n\x7b\n  \"a\": 1\n\x7d\n]".data) =
      some "[\n\x7b\n  \"a\": 1\n\x7d,\n\x7b\n  \"b\": 2\n\x7d\n]".data ∧
    loads "[\n\x7b\n  \"a\": 1\n\x7d,\n\x7b\n  \"b\": 2\n\x7d\n]".data =
      .ok (.arr [recA, recB]) :=
  ⟨rfl, rfl, rfl⟩

/-! ## Claim C4 -/

theorem dumpRecords_cons_cons (r y : Json) (ys : List Json) :
    dumpRecords (r :: y :: ys) = dumpJson 0 r ++ ',' :: '\n' :: dumpRecords (y :: ys) := rfl

theorem dumpRecords_append {B1 B2 : List Json} (h1 : B1 ≠ []) (h2 : B2 ≠ []) :
    dumpRecords (B1 ++ B2) = dumpRecords B1 ++ ',' :: '\n' :: dumpRecords B2 := by
  induction B1 with
  | nil => exact absurd rfl h1
  | cons r rest ih =>
    cases rest with
    | nil =>
      cases B2 with
      | nil => exact absurd rfl h2
      | cons b bs => simp [dumpRecords_cons_cons, dumpRecords]
    | cons y ys =>
      have ih' := ih (by simp)
      simp only [List.cons_append] at ih' ⊢
      rw [dumpRecords_cons_cons, dumpRecords_cons_cons, ih']
      simp [List.append_assoc]

theorem lastIdxRB_append_rbracket (t : List Char) :
    lastIdxRB (t ++ [']']) = some t.length := by
  induction t with
  | nil => rfl
  | cons a t' ih => simp [lastIdxRB, ih]

theorem lastRBracketIdx_freshContent (B : List Json) :
    lastRBracketIdx (freshContent B) = some ((dumpRecords B).length + 3) := by
  have hform : freshContent B = '[' :: (('\n' :: (dumpRecords B ++ ['\n'])) ++ [']']) := by
    simp [freshContent]
  rw [hform]
  simp only [lastRBracketIdx, List.drop_succ_cons, List.drop_zero]
  rw [lastIdxRB_append_rbracket,
    show ('\n' :: (dumpRecords B ++ ['\n'])).length = (dumpRecords B).length + 2 by simp]
  rfl

/-- Appending a batch to a file the writer itself just produced extends the
array in place. -/
theorem appendResults_freshContent (B C : List Json) :
    appendResults C (some (freshContent B)) =
      some ('[' :: '\n' :: dumpRecords B ++ ',' :: '\n' :: dumpRecords C ++ '\n' :: [']']) := by
  have hlen : (freshContent B).length = (dumpRecords B).length + 4 := by
    simp [freshContent]
  simp only [appendResults]
  rw [if_pos (by omega : (freshContent B).length > 2), lastRBracketIdx_freshContent]
  have htake : (freshContent B).take ((dumpRecords B).length + 3 - 1) =
      '[' :: '\n' :: dumpRecords B := by
    have hform : freshContent B = ('[' :: '\n' :: dumpRecords B) ++ '\n' :: [']'] := by
      simp [freshContent]
    rw [hform]
    rw [show (dumpRecords B).length + 3 - 1 = ('[' :: '\n' :: dumpRecords B).length by simp]
    exact List.take_left _ _
  show some ((freshContent B).take ((dumpRecords B).length + 3 - 1)
      ++ ',' :: '\n' :: dumpRecords C ++ ['\n', ']']) = _
  rw [htake]

/-- C4 (counterexample): with an empty first batch, the fresh write leaves
`[\n\n]`, and the second append then produces a leading comma: the file no
longer parses, while the claim demands it parse as `[] ++ [{"b":2}]`. -/
theorem C4_counterexample :
    (appendResults [] none).bind (fun c => appendResults [recB] (some c)) =
      some "[\n,\n\x7b\n  \"b\": 2\n\x7d\n]".data ∧
    (∃ e, loads "[\n,\n\x7b\n  \"b\": 2\n\x7d\n]".data = .error e) ∧
    loads (freshContent [recB]) = .ok (.arr [recB]) :=
  ⟨rfl, ⟨_, rfl⟩, rfl⟩

/-- C4 (amended): for *nonempty* batches B1 and B2, appending B1 to a fresh
file and then B2 produces byte-for-byte the file a single fresh write of
`B1 ++ B2` would produce — the array grows by exactly the appended batch. -/
theorem C4_amended (B1 B2 : List Json) (h1 : B1 ≠ []) (h2 : B2 ≠ []) :
    (appendResults B1 none).bind (fun c => appendResults B2 (some c)) =
      appendResults (B1 ++ B2) none := by
  show appendResults B2 (some (freshContent B1)) = some (freshContent (B1 ++ B2))
  rw [appendResults_freshContent]
  simp only [freshContent, dumpRecords_append h1 h2]
  simp [List.append_assoc]

/-- C4 (witness): the amended theorem applied to the two singleton
batches of the spec scenario. -/
theorem C4_amended_witness :
    (appendResults [recA] none).bind (fun c => appendResults [recB] (some c)) =
      appendResults ([recA] ++ [recB]) none :=
  C4_amended [recA] [recB] (by simp) (by simp)

end ObjLoc
